import Mathlib

/-!
Verification development for the Rivet terminal chat client.

Part 1 embeds the permission resolver of `src/api/channel.rs`
(`parse_permission_string`, `Channel::calculate_permissions`,
`Channel::is_readable`).  Machine integers (`u64`) are modelled as `Nat`
with explicit 64-bit masking where Rust's `!` complement matters;
fallible parsing is modelled with `Option`.
-/

namespace Rivet

/-- `Role` record of `src/api/channel.rs` (id, name, permission bitmask kept
as the wire string, exactly as the source stores it). -/
structure Role where
  id : String
  name : String
  permissions : String
deriving DecidableEq, Repr

/-- `PermissionContext` record of `src/api/channel.rs`. -/
structure PermissionContext where
  user_id : String
  user_role_ids : List String
  all_guild_roles : List Role
  everyone_role_id : String
deriving DecidableEq, Repr

/-- `Overwrite` record of `src/api/channel.rs`; `type` is `0` for a
role-scoped overwrite and `1` for a member-scoped one. -/
structure Overwrite where
  id : String
  type : Nat
  allow : String
  deny : String
deriving DecidableEq, Repr

/-- `Channel` record of `src/api/channel.rs`; `channel_type = 4` is the
"category" kind. -/
structure Channel where
  id : String
  name : String
  channel_type : Nat
  guild_id : Option String
  permission_overwrites : List Overwrite
deriving DecidableEq, Repr

/-- `VIEW_CHANNEL_PERMISSION` constant of `src/api/channel.rs`. -/
def VIEW_CHANNEL_PERMISSION : Nat := 1 <<< 10

/-- All 64 bits set: the value of `!0u64`. -/
def MASK64 : Nat := 2 ^ 64 - 1

/-- `p & !d` on `u64`, for `p d < 2^64`: complement is taken on 64 bits. -/
def andNot64 (p d : Nat) : Nat := p &&& (MASK64 ^^^ d)

/-- Numeric value of a decimal digit character, when it is one. -/
def decDigitVal (c : Char) : Option Nat :=
  if '0' ≤ c ∧ c ≤ '9' then some (c.toNat - '0'.toNat) else none

/-- Numeric value of a hexadecimal digit character, when it is one. -/
def hexDigitVal (c : Char) : Option Nat :=
  if '0' ≤ c ∧ c ≤ '9' then some (c.toNat - '0'.toNat)
  else if 'a' ≤ c ∧ c ≤ 'f' then some (c.toNat - 'a'.toNat + 10)
  else if 'A' ≤ c ∧ c ≤ 'F' then some (c.toNat - 'A'.toNat + 10)
  else none

/-- Accumulate the value of a digit string; `none` on the first non-digit. -/
def parseDigits (dv : Char → Option Nat) (base : Nat) : List Char → Nat → Option Nat
  | [], acc => some acc
  | c :: cs, acc =>
    match dv c with
    | some d => parseDigits dv base cs (acc * base + d)
    | none => none

/-- Rust's `u64` string parsing at a given radix (`u64::from_str` for radix
10, `u64::from_str_radix(_, 16)` for radix 16): an optional leading `+`,
then one or more digits, and the value must fit in 64 bits; anything else
is an error (`none`). -/
def rustParseU64 (dv : Char → Option Nat) (base : Nat) (s : String) : Option Nat :=
  let cs :=
    match s.data with
    | '+' :: rest => rest
    | cs => cs
  if cs.isEmpty then none
  else
    match parseDigits dv base cs 0 with
    | some v => if v < 2 ^ 64 then some v else none
    | none => none

/-- Decimal `u64` parse, as `hex_string.parse::<u64>()` in the source. -/
def rustParseU64Dec (s : String) : Option Nat := rustParseU64 decDigitVal 10 s

/-- Hexadecimal `u64` parse, as `u64::from_str_radix(hex_string, 16)`. -/
def rustParseU64Hex (s : String) : Option Nat := rustParseU64 hexDigitVal 16 s

/-- `parse_permission_string` of `src/api/channel.rs`: decimal parse,
falling back to hexadecimal, falling back to `0`. -/
def parse_permission_string (s : String) : Nat :=
  match rustParseU64Dec s with
  | some v => v
  | none =>
    match rustParseU64Hex s with
    | some v => v
    | none => 0

/-- Lines 47–58 of `src/api/channel.rs`: the `@everyone` role's parsed
permissions, with a fallback role whose permission string is `"0"` when the
role list has no entry with the everyone id. -/
def everyoneRolePermissions (ctx : PermissionContext) : Nat :=
  match ctx.all_guild_roles.find? (fun r => r.id == ctx.everyone_role_id) with
  | some r => parse_permission_string r.permissions
  | none => parse_permission_string "0"

/-- Lines 59–71 of `src/api/channel.rs`: OR in the parsed permissions of
every held role other than the everyone role, skipping ids missing from the
guild role list. -/
def orUserRolePermissions (ctx : PermissionContext) (p : Nat) : Nat :=
  (ctx.user_role_ids.filter (fun rid => rid != ctx.everyone_role_id)).foldl
    (fun acc rid =>
      match ctx.all_guild_roles.find? (fun r => r.id == rid) with
      | some r => acc ||| parse_permission_string r.permissions
      | none => acc) p

/-- Lines 73–83 of `src/api/channel.rs`: apply the first everyone-scoped
overwrite, clearing its deny bits then setting its allow bits. -/
def applyEveryoneOverwrite (ch : Channel) (ctx : PermissionContext) (p : Nat) : Nat :=
  match ch.permission_overwrites.find? (fun o => o.type == 0 && o.id == ctx.everyone_role_id) with
  | some o => andNot64 p (parse_permission_string o.deny) ||| parse_permission_string o.allow
  | none => p

/-- Lines 85–101 of `src/api/channel.rs`: accumulate
`(role_denies, role_allows)` over the held non-everyone role ids, taking
for each id the first role-scoped overwrite with that id. -/
def roleOverwriteAccum (ch : Channel) (ctx : PermissionContext) : Nat × Nat :=
  (ctx.user_role_ids.filter (fun rid => rid != ctx.everyone_role_id)).foldl
    (fun acc rid =>
      match ch.permission_overwrites.find? (fun o => o.type == 0 && o.id == rid) with
      | some o => (acc.1 ||| parse_permission_string o.deny, acc.2 ||| parse_permission_string o.allow)
      | none => acc) (0, 0)

/-- Lines 103–104 of `src/api/channel.rs`: apply the accumulated role
denies then the accumulated role allows. -/
def applyRoleOverwrites (ch : Channel) (ctx : PermissionContext) (p : Nat) : Nat :=
  andNot64 p (roleOverwriteAccum ch ctx).1 ||| (roleOverwriteAccum ch ctx).2

/-- Lines 106–110 of `src/api/channel.rs`: the key used for the
member-scoped overwrite lookup.  The source takes
`context.user_role_ids.first().unwrap_or(&String::new())` — the first held
role id, not `context.user_id`. -/
def memberOverwriteKey (ctx : PermissionContext) : String :=
  match ctx.user_role_ids.head? with
  | some s => s
  | none => ""

/-- Lines 112–122 of `src/api/channel.rs`: apply the first member-scoped
overwrite whose id equals the member key, deny bits then allow bits. -/
def applyMemberOverwrite (ch : Channel) (ctx : PermissionContext) (p : Nat) : Nat :=
  match ch.permission_overwrites.find? (fun o => o.type == 1 && o.id == memberOverwriteKey ctx) with
  | some o => andNot64 p (parse_permission_string o.deny) ||| parse_permission_string o.allow
  | none => p

/-- `Channel::calculate_permissions` of `src/api/channel.rs`, as the
composition of its five stages in source order. -/
def calculate_permissions (ch : Channel) (ctx : PermissionContext) : Nat :=
  applyMemberOverwrite ch ctx
    (applyRoleOverwrites ch ctx
      (applyEveryoneOverwrite ch ctx
        (orUserRolePermissions ctx (everyoneRolePermissions ctx))))

/-- `Channel::is_readable` of `src/api/channel.rs`. -/
def is_readable (ch : Channel) (ctx : PermissionContext) : Bool :=
  if ch.channel_type == 4 then false
  else (calculate_permissions ch ctx &&& VIEW_CHANNEL_PERMISSION) != 0

/-!
Part 2 embeds the action-dispatch state machine: the `App` shared state,
the `AppAction` variant, and one dispatcher step of the `run_app` loop in
`src/main.rs` (lines 389–586).  A step is modelled as a pure function from
the locked state and the received action to the updated state, the list of
detached units of work it spawns, and whether the loop breaks; a Rust
panic (index out of bounds, `% 0`, `usize` underflow) is modelled as
`none`.  The escape arm of the refactored dispatcher
`handle_keys_events` in `src/ui/events.rs` (lines 64–90) is embedded
separately, with the `get_channel` remote call as an oracle whose `none`
result models the failure that its `.unwrap()` turns into a panic.
-/

/-- `AppState` variant of `src/main.rs`. -/
inductive AppState where
  | SelectingGuild
  | SelectingChannel (guild_id : String)
  | Chatting (channel_id : String)
deriving DecidableEq, Repr

/-- `Guild` record of `src/api/guild.rs`. -/
structure Guild where
  id : String
  name : String
deriving DecidableEq, Repr

/-- Modelled from the spec: `src/model/channel.rs` (absent from the
source tree) defines the `Message` record; the dispatcher treats messages
as opaque values that are only stored wholesale, so the record is reduced
to its identity. -/
structure Message where
  id : String
deriving DecidableEq, Repr

/-- `AppAction` variant of `src/main.rs`. -/
inductive AppAction where
  | Quit
  | InputChar (c : Char)
  | InputBackspace
  | InputEscape
  | InputSubmit
  | SelectNext
  | SelectPrevious
  | ApiUpdateMessages (msgs : List Message)
  | ApiUpdateChannel (chans : List Channel)
  | TransitionToChat (channel_id : String)
  | TransitionToChannels (guild_id : String)
  | TransitionToGuilds
deriving DecidableEq, Repr

/-- `App` record of `src/main.rs`; the input buffer is modelled as its
list of characters (Rust pushes and pops whole `char`s). -/
structure App where
  state : AppState
  guilds : List Guild
  channels : List Channel
  messages : List Message
  input : List Char
  selection_index : Nat
  status_message : String
  terminal_height : Nat
  terminal_width : Nat
deriving DecidableEq, Repr

/-- A detached unit of work spawned by a dispatcher step
(`tokio::spawn` in `src/main.rs`). -/
inductive Effect where
  | spawnFetchChannels (guild_id : String)
  | spawnCreateMessage (channel_id : String) (content : List Char)
deriving DecidableEq, Repr

/-- Result of one dispatcher step: updated state, spawned detached work in
spawn order, and whether the dispatch loop breaks. -/
structure StepResult where
  app : App
  effects : List Effect
  breakLoop : Bool
deriving DecidableEq, Repr

/-- Lines 437–446 of `src/main.rs`: the actions that the detached
channel-list fetch enqueues, in order, when the remote call succeeds. -/
def fetchChannelsSuccessActions (guild_id : String) (chans : List Channel) : List AppAction :=
  [AppAction.ApiUpdateChannel chans, AppAction.TransitionToChannels guild_id]

/-- The status line set by the escape arms (lines 399 and 404 of
`src/main.rs`, also lines 70–72, 80 and 85 of `src/ui/events.rs`). -/
def selectServerStatus : String :=
  "Select a server. Use arrows to navigate, Enter to select & Esc to quit"

/-- The non-category channels, as filtered throughout `src/main.rs`
(`filter(|c| c.channel_type != 4)`). -/
def textChannels (l : List Channel) : List Channel :=
  l.filter (fun c => c.channel_type != 4)

/-- One step of the dispatcher match in `run_app` (`src/main.rs` lines
389–586).  `none` models a Rust panic: the out-of-bounds index in the
submit arms, the `% 0` in `SelectNext` and the `usize` underflow in
`SelectPrevious` when the channel list is non-empty but holds no
non-category channel. -/
def run_app_step (app : App) (action : AppAction) : Option StepResult :=
  match action with
  | AppAction.Quit => some ⟨app, [], true⟩
  | AppAction.InputEscape =>
    match app.state with
    | AppState.SelectingGuild => some ⟨app, [], true⟩
    | AppState.SelectingChannel _ =>
      some ⟨{ app with
              state := AppState.SelectingGuild
              status_message := selectServerStatus
              selection_index := 0 }, [], false⟩
    | AppState.Chatting _ =>
      some ⟨{ app with
              state := AppState.SelectingGuild
              status_message := selectServerStatus
              selection_index := 0 }, [], false⟩
  | AppAction.InputChar c =>
    match app.state with
    | AppState.Chatting _ => some ⟨{ app with input := app.input ++ [c] }, [], false⟩
    | _ => some ⟨app, [], false⟩
  | AppAction.InputBackspace => some ⟨{ app with input := app.input.dropLast }, [], false⟩
  | AppAction.InputSubmit =>
    match app.state with
    | AppState.SelectingGuild =>
      if app.guilds.isEmpty then some ⟨app, [], false⟩
      else
        match app.guilds.get? app.selection_index with
        | none => none
        | some g =>
          some ⟨{ app with status_message := "Loading channels for " ++ g.name ++ "..." },
                [Effect.spawnFetchChannels g.id], false⟩
    | AppState.SelectingChannel _ =>
      if (textChannels app.channels).isEmpty then some ⟨app, [], false⟩
      else
        match (textChannels app.channels).get? app.selection_index with
        | none => none
        | some ch =>
          some ⟨{ app with
                  state := AppState.Chatting ch.id
                  status_message := "Chatting in channel #" ++ ch.name
                  selection_index := 0 }, [], false⟩
    | AppState.Chatting cid =>
      if app.input.isEmpty then some ⟨{ app with input := [] }, [], false⟩
      else some ⟨{ app with input := [] }, [Effect.spawnCreateMessage cid app.input], false⟩
  | AppAction.SelectNext =>
    match app.state with
    | AppState.SelectingGuild =>
      if app.guilds.isEmpty then some ⟨app, [], false⟩
      else some ⟨{ app with selection_index := (app.selection_index + 1) % app.guilds.length },
                 [], false⟩
    | AppState.SelectingChannel _ =>
      if app.channels.isEmpty then some ⟨app, [], false⟩
      else if (textChannels app.channels).length == 0 then none
      else some ⟨{ app with
                   selection_index := (app.selection_index + 1) % (textChannels app.channels).length },
                 [], false⟩
    | AppState.Chatting _ => some ⟨app, [], false⟩
  | AppAction.SelectPrevious =>
    match app.state with
    | AppState.SelectingGuild =>
      if app.guilds.isEmpty then some ⟨app, [], false⟩
      else if app.selection_index == 0 then
        some ⟨{ app with selection_index := app.guilds.length - 1 }, [], false⟩
      else some ⟨{ app with selection_index := app.selection_index - 1 }, [], false⟩
    | AppState.SelectingChannel _ =>
      if app.channels.isEmpty then some ⟨app, [], false⟩
      else if app.selection_index == 0 then
        if (textChannels app.channels).length == 0 then none
        else some ⟨{ app with selection_index := (textChannels app.channels).length - 1 }, [], false⟩
      else some ⟨{ app with selection_index := app.selection_index - 1 }, [], false⟩
    | AppState.Chatting _ => some ⟨app, [], false⟩
  | AppAction.ApiUpdateMessages msgs => some ⟨{ app with messages := msgs }, [], false⟩
  | AppAction.ApiUpdateChannel chans =>
    some ⟨{ app with
            channels := chans
            status_message :=
              if chans.length > 0 then
                "Channels loaded. Select one to chat. (Esc to return to Servers)"
              else "No text channels found. (Esc to return to Servers)"
            selection_index := 0 }, [], false⟩
  | AppAction.TransitionToChannels gid =>
    some ⟨{ app with state := AppState.SelectingChannel gid, selection_index := 0 }, [], false⟩
  | AppAction.TransitionToChat cid =>
    some ⟨{ app with state := AppState.Chatting cid, status_message := "Chatting..." }, [],
          false⟩
  | AppAction.TransitionToGuilds =>
    some ⟨{ app with state := AppState.SelectingGuild, selection_index := 0 }, [], false⟩

/-- Loop-control outcome of `handle_keys_events` in `src/ui/events.rs`. -/
inductive KeywordAction where
  | Break
  | Continue
deriving DecidableEq, Repr

/-- The `AppAction::InputEscape` arm of `handle_keys_events`
(`src/ui/events.rs` lines 64–90).  `get_channel` is the remote single
channel lookup; `none` models its failure, which the source's `.unwrap()`
turns into a panic (outer `none`). -/
def handle_keys_events_escape (get_channel : String → Option Channel) (app : App) :
    Option (App × Option KeywordAction) :=
  match app.state with
  | AppState.SelectingGuild => some (app, some KeywordAction.Break)
  | AppState.SelectingChannel _ =>
    some ({ app with
            state := AppState.SelectingGuild
            status_message := selectServerStatus
            selection_index := 0 }, none)
  | AppState.Chatting channel_id =>
    match get_channel channel_id with
    | none => none
    | some channel =>
      match channel.guild_id with
      | some gid =>
        some ({ app with
                state := AppState.SelectingChannel gid
                status_message := selectServerStatus
                selection_index := 0 }, none)
      | none =>
        some ({ app with
                state := AppState.SelectingGuild
                status_message := selectServerStatus
                selection_index := 0 }, none)

/-!
Part 3: the reference resolution computation written from the spec's words
(§4.1 steps 1–4, the reference computation of claim C2), to be compared
with the source function, and the concrete inputs used by the individual
claims.
-/

/-- Spec reference, step 1 (claim C2): the default role's permission
bitmask, all-zero when the default role is absent from the role list. -/
def specReferenceBase (ctx : PermissionContext) : Nat :=
  match ctx.all_guild_roles.find? (fun r => r.id == ctx.everyone_role_id) with
  | some r => parse_permission_string r.permissions
  | none => 0

/-- Spec reference, step 2 (claim C2): OR in the bitmask of every role the
user holds except the default role, ignoring ids missing from the server's
role list. -/
def specReferenceWithRoles (ctx : PermissionContext) : Nat :=
  (ctx.user_role_ids.filter (fun rid => rid != ctx.everyone_role_id)).foldl
    (fun acc rid =>
      match ctx.all_guild_roles.find? (fun r => r.id == rid) with
      | some r => acc ||| parse_permission_string r.permissions
      | none => acc) (specReferenceBase ctx)

/-- Spec reference, step 3 (claim C2): if a default-role-scoped overwrite
exists on the channel, clear its deny bits then set its allow bits. -/
def specReferenceAfterEveryone (ch : Channel) (ctx : PermissionContext) : Nat :=
  match ch.permission_overwrites.find? (fun o => o.type == 0 && o.id == ctx.everyone_role_id) with
  | some o =>
    andNot64 (specReferenceWithRoles ctx) (parse_permission_string o.deny)
      ||| parse_permission_string o.allow
  | none => specReferenceWithRoles ctx

/-- Spec reference, step 4, deny side (claim C2): the union of the deny
bitmasks across ALL role-scoped overwrites matching any non-default role
the user holds. -/
def specCombinedRoleDeny (ch : Channel) (ctx : PermissionContext) : Nat :=
  (ch.permission_overwrites.filter (fun o =>
      o.type == 0 && ctx.user_role_ids.contains o.id && o.id != ctx.everyone_role_id)).foldl
    (fun acc o => acc ||| parse_permission_string o.deny) 0

/-- Spec reference, step 4, allow side (claim C2): the union of the allow
bitmasks across ALL role-scoped overwrites matching any non-default role
the user holds. -/
def specCombinedRoleAllow (ch : Channel) (ctx : PermissionContext) : Nat :=
  (ch.permission_overwrites.filter (fun o =>
      o.type == 0 && ctx.user_role_ids.contains o.id && o.id != ctx.everyone_role_id)).foldl
    (fun acc o => acc ||| parse_permission_string o.allow) 0

/-- Reference computation from the spec's words (claim C2, §4.1
steps 1–4): steps 1–3, then apply the combined role deny (clear) and the
combined role allow (set) exactly once. -/
def specResolveReference (ch : Channel) (ctx : PermissionContext) : Nat :=
  andNot64 (specReferenceAfterEveryone ch ctx) (specCombinedRoleDeny ch ctx)
    ||| specCombinedRoleAllow ch ctx

/-- Distinctness of the subjects of the role-scoped overwrites on a
channel: no two role-scoped (`type = 0`) overwrites name the same role id. -/
def roleOverwriteIdsDistinct (ch : Channel) : Prop :=
  (ch.permission_overwrites.filter (fun o => o.type == 0)).Pairwise (fun a b => a.id ≠ b.id)

instance (ch : Channel) : Decidable (roleOverwriteIdsDistinct ch) := by
  unfold roleOverwriteIdsDistinct
  exact List.instDecidablePairwise _

/-- C1 input: a channel with a member-scoped overwrite naming the user. -/
def c1_channel : Channel :=
  { id := "chan1"
    name := "general"
    channel_type := 0
    guild_id := some "g1"
    permission_overwrites := [{ id := "u100", type := 1, allow := "1024", deny := "0" }] }

/-- C1 input: the user `u100` holds exactly role `r1`. -/
def c1_context : PermissionContext :=
  { user_id := "u100"
    user_role_ids := ["r1"]
    all_guild_roles := [{ id := "e1", name := "@everyone", permissions := "0" }]
    everyone_role_id := "e1" }

/-- C2 counterexample input: two role-scoped overwrites share the subject
`r`, and a member-scoped overwrite matches the member key. -/
def c2_channel : Channel :=
  { id := "chan2"
    name := "general"
    channel_type := 0
    guild_id := some "g2"
    permission_overwrites :=
      [{ id := "r", type := 0, allow := "0", deny := "1" },
       { id := "r", type := 0, allow := "0", deny := "2" },
       { id := "r", type := 1, allow := "8", deny := "0" }] }

/-- C2 counterexample input: the user holds role `r`; the everyone role
grants bits `3`. -/
def c2_context : PermissionContext :=
  { user_id := "u2"
    user_role_ids := ["r"]
    all_guild_roles := [{ id := "e2", name := "@everyone", permissions := "3" }]
    everyone_role_id := "e2" }

/-- C2 witness input: role-scoped overwrite subjects are distinct. -/
def c2w_channel : Channel :=
  { id := "chan2w"
    name := "general"
    channel_type := 0
    guild_id := some "g2"
    permission_overwrites :=
      [{ id := "r", type := 0, allow := "4", deny := "1" },
       { id := "s", type := 0, allow := "0", deny := "2" },
       { id := "r", type := 1, allow := "8", deny := "0" }] }

/-- C2 witness input: the user holds roles `r` and `s`. -/
def c2w_context : PermissionContext :=
  { user_id := "u2"
    user_role_ids := ["r", "s"]
    all_guild_roles := [{ id := "e2", name := "@everyone", permissions := "3" }]
    everyone_role_id := "e2" }

/-- C3 input: a member-scoped overwrite naming `a`, which is a role id. -/
def c3_channel : Channel :=
  { id := "chan3"
    name := "general"
    channel_type := 0
    guild_id := some "g3"
    permission_overwrites := [{ id := "a", type := 1, allow := "1024", deny := "0" }] }

/-- C3 input: held roles listed as `[a, b]`. -/
def c3_context_ab : PermissionContext :=
  { user_id := "u3"
    user_role_ids := ["a", "b"]
    all_guild_roles := [{ id := "e3", name := "@everyone", permissions := "0" }]
    everyone_role_id := "e3" }

/-- C3 input: the same context with the held roles listed as `[b, a]`. -/
def c3_context_ba : PermissionContext :=
  { user_id := "u3"
    user_role_ids := ["b", "a"]
    all_guild_roles := [{ id := "e3", name := "@everyone", permissions := "0" }]
    everyone_role_id := "e3" }

/-- A channel of the category kind (`channel_type = 4`). -/
def categoryChannel : Channel :=
  { id := "cat0"
    name := "Category"
    channel_type := 4
    guild_id := some "g0"
    permission_overwrites := [] }

/-- C6 witness input: the looked-up channel reports parent guild `g6`. -/
def c6_channel : Channel :=
  { id := "c6"
    name := "general"
    channel_type := 0
    guild_id := some "g6"
    permission_overwrites := [] }

/-- C6 witness input: the dispatcher is conversing in channel `c6`. -/
def c6_app : App :=
  { state := AppState.Chatting "c6"
    guilds := []
    channels := []
    messages := []
    input := []
    selection_index := 0
    status_message := "Chatting..."
    terminal_height := 20
    terminal_width := 80 }

/-- C6 witness input: the channel lookup oracle. -/
def c6_lookup : String → Option Channel :=
  fun cid => if cid == "c6" then some c6_channel else none

/-- C7 input: prior state with a stale selection index. -/
def c7_app : App :=
  { state := AppState.SelectingChannel "g7"
    guilds := []
    channels := []
    messages := []
    input := []
    selection_index := 5
    status_message := ""
    terminal_height := 20
    terminal_width := 80 }

/-- C7 input: an incoming channel list holding only a category channel. -/
def c7_category_only : List Channel :=
  [{ id := "cat7", name := "Stuff", channel_type := 4, guild_id := some "g7",
     permission_overwrites := [] }]

/-- C8 input: selecting a channel while the channel list is non-empty but
holds no non-category channel. -/
def c8_app : App :=
  { state := AppState.SelectingChannel "g8"
    guilds := []
    channels := [{ id := "cat8", name := "Stuff", channel_type := 4, guild_id := some "g8",
                   permission_overwrites := [] }]
    messages := []
    input := []
    selection_index := 0
    status_message := ""
    terminal_height := 20
    terminal_width := 80 }

/-- C9 witness input: one guild, selected. -/
def c9_app : App :=
  { state := AppState.SelectingGuild
    guilds := [{ id := "g9", name := "Guild Nine" }]
    channels := []
    messages := []
    input := []
    selection_index := 0
    status_message := "ready"
    terminal_height := 20
    terminal_width := 80 }

/-- C10 witness input: selecting a server. -/
def c10_app : App :=
  { state := AppState.SelectingGuild
    guilds := []
    channels := []
    messages := []
    input := []
    selection_index := 0
    status_message := "ready"
    terminal_height := 20
    terminal_width := 80 }

example : parse_permission_string "1024" = 1024 := by decide
example : parse_permission_string "+400" = 400 := by decide
example : parse_permission_string "ff" = 255 := by decide
example : parse_permission_string "10x" = 0 := by decide
example : parse_permission_string "" = 0 := by decide
example : parse_permission_string "0" = 0 := by decide
example : andNot64 3 1 = 2 := by decide
example : calculate_permissions c2_channel c2_context = 10 := by decide
example : specResolveReference c2_channel c2_context = 0 := by decide
example : roleOverwriteIdsDistinct c2w_channel := by decide
example : ¬ roleOverwriteIdsDistinct c2_channel := by decide

/-!
Theorems.  One theorem settles each claim; code-bug claims get a closed
theorem evaluating the embedded source at the failing input.
-/

/-- C1: refuted by the code.  The member-scoped overwrite lookup key is
`user_role_ids.first()`, not `context.user_id`: here a member-scoped
overwrite matches `user_id = "u100"` and allows the view bit `1024`, yet
the resolved bitmask is `0` — the overwrite is never applied because the
key used is the first held role id `"r1"`. -/
theorem c1_member_overwrite_not_applied :
    c1_context.user_id = "u100"
    ∧ (c1_channel.permission_overwrites.find? (fun o => o.type == 1 && o.id == c1_context.user_id)
        = some { id := "u100", type := 1, allow := "1024", deny := "0" })
    ∧ parse_permission_string "1024" &&& VIEW_CHANNEL_PERMISSION ≠ 0
    ∧ memberOverwriteKey c1_context = "r1"
    ∧ calculate_permissions c1_channel c1_context = 0 := by decide

/-- C3: refuted by the code.  Two contexts that differ only in the order
of `user_role_ids` resolve to different bitmasks, because the
member-overwrite lookup key is the FIRST held role id: with order
`[a, b]` the member-scoped overwrite on `a` is applied (result `1024`),
with order `[b, a]` it is not (result `0`). -/
theorem c3_resolve_depends_on_role_order :
    c3_context_ba.user_role_ids.Perm c3_context_ab.user_role_ids
    ∧ c3_context_ba.user_id = c3_context_ab.user_id
    ∧ c3_context_ba.all_guild_roles = c3_context_ab.all_guild_roles
    ∧ c3_context_ba.everyone_role_id = c3_context_ab.everyone_role_id
    ∧ calculate_permissions c3_channel c3_context_ab = 1024
    ∧ calculate_permissions c3_channel c3_context_ba = 0 := by decide

/-- C4: confirmed.  `is_readable` is false on every category channel
(`channel_type = 4`) regardless of the bitmask, and otherwise true exactly
when the view bit `1 <<< 10` is set in the resolved bitmask. -/
theorem c4_is_readable_characterisation (ch : Channel) (ctx : PermissionContext) :
    is_readable ch ctx
      = (ch.channel_type != 4
          && ((calculate_permissions ch ctx &&& VIEW_CHANNEL_PERMISSION) != 0)) := by
  unfold is_readable
  by_cases h : ch.channel_type = 4 <;> simp [h]

/-- C5: confirmed.  Permission-bitmask parsing is total (it is a function
into `Nat`) and returns the decimal parse when it succeeds, otherwise the
hexadecimal parse when it succeeds, otherwise `0`. -/
theorem c5_parse_total_with_fallback (s : String) :
    parse_permission_string s =
      match rustParseU64Dec s, rustParseU64Hex s with
      | some v, _ => v
      | none, some v => v
      | none, none => 0 := by
  unfold parse_permission_string
  cases rustParseU64Dec s <;> cases rustParseU64Hex s <;> rfl

/-- C6: confirmed against the dispatcher of `src/ui/events.rs`
(`handle_keys_events`): escaping while conversing looks the channel up;
a reported guild id leads to `SelectingChannel` of that guild, and no
guild id leads to `SelectingGuild`. -/
theorem c6_escape_from_chat_rederives_guild (get_channel : String → Option Channel)
    (app : App) (cid : String) (ch : Channel)
    (hstate : app.state = AppState.Chatting cid) (hlookup : get_channel cid = some ch) :
    (∀ gid, ch.guild_id = some gid →
      (handle_keys_events_escape get_channel app).map (fun r => r.1.state)
        = some (AppState.SelectingChannel gid))
    ∧ (ch.guild_id = none →
      (handle_keys_events_escape get_channel app).map (fun r => r.1.state)
        = some AppState.SelectingGuild) := by
  constructor
  · intro gid hg
    simp [handle_keys_events_escape, hstate, hlookup, hg]
  · intro hg
    simp [handle_keys_events_escape, hstate, hlookup, hg]

/-- C6 witness: a concrete conversation in channel `c6` whose lookup
reports guild `g6` escapes to `SelectingChannel "g6"`. -/
theorem c6_escape_witness :
    (handle_keys_events_escape c6_lookup c6_app).map (fun r => r.1.state)
      = some (AppState.SelectingChannel "g6") :=
  (c6_escape_from_chat_rederives_guild c6_lookup c6_app "c6" c6_channel rfl (by decide)).1
    "g6" rfl

/-- C7: refuted by the code.  Processing channels-updated with a list
whose only channel is a category does replace the list and reset the
selection index, but the status text is chosen by `channels.len() > 0` —
all channels, not non-category ones — so it reports channels loaded even
though no non-category channel exists. -/
theorem c7_status_ignores_category_filter :
    textChannels c7_category_only = []
    ∧ (run_app_step c7_app (AppAction.ApiUpdateChannel c7_category_only)).map
        (fun r => r.app.status_message)
        = some "Channels loaded. Select one to chat. (Esc to return to Servers)"
    ∧ (run_app_step c7_app (AppAction.ApiUpdateChannel c7_category_only)).map
        (fun r => (r.app.channels, r.app.selection_index))
        = some (c7_category_only, 0) := by decide

/-- C8: refuted by the code.  With a non-empty channel list holding no
non-category channel, the guard `!channels.is_empty()` passes while the
filtered count is `0`, so select-next computes `% 0` (a Rust panic,
modelled as `none`) and select-previous computes `0usize - 1` (an
overflow, modelled as `none`) instead of being a no-op. -/
theorem c8_select_panics_on_category_only_list :
    c8_app.channels ≠ []
    ∧ textChannels c8_app.channels = []
    ∧ run_app_step c8_app AppAction.SelectNext = none
    ∧ run_app_step c8_app AppAction.SelectPrevious = none := by decide

/-- C9: confirmed.  Submit while selecting a server is a pure no-op when
the guild list is empty; otherwise it spawns exactly one detached
channel-list fetch for the selected guild, whose success path enqueues
the channels-updated action followed by the transition-to-channel-list
action, in that order. -/
theorem c9_submit_selecting_guild (app : App) (h : app.state = AppState.SelectingGuild) :
    (app.guilds = [] → run_app_step app AppAction.InputSubmit = some ⟨app, [], false⟩)
    ∧ (∀ g, app.guilds.get? app.selection_index = some g →
        (run_app_step app AppAction.InputSubmit).map (fun r => r.effects)
          = some [Effect.spawnFetchChannels g.id]
        ∧ ∀ chans, fetchChannelsSuccessActions g.id chans
            = [AppAction.ApiUpdateChannel chans, AppAction.TransitionToChannels g.id]) := by
  constructor
  · intro hg
    simp [run_app_step, h, hg]
  · intro g hg
    have hne : app.guilds.isEmpty = false := by
      cases hl : app.guilds
      · rw [hl] at hg; simp at hg
      · simp [hl]
    have hg2 : app.guilds[app.selection_index]? = some g := by simpa using hg
    refine ⟨?_, fun chans => rfl⟩
    simp [run_app_step, h, hne, hg2]

/-- C9 witness: submitting with one guild selected spawns the fetch for
`g9`, whose success path enqueues channels-updated then
transition-to-channel-list. -/
theorem c9_submit_witness :
    ((run_app_step c9_app AppAction.InputSubmit).map (fun r => r.effects)
        = some [Effect.spawnFetchChannels "g9"])
    ∧ fetchChannelsSuccessActions "g9" []
        = [AppAction.ApiUpdateChannel [], AppAction.TransitionToChannels "g9"] := by
  have h := (c9_submit_selecting_guild c9_app rfl).2 { id := "g9", name := "Guild Nine" } rfl
  exact ⟨h.1, h.2 []⟩

/-- C10: confirmed.  A character-input action processed while selecting a
server or a channel leaves the whole shared state unchanged, spawns no
work and does not break the loop. -/
theorem c10_input_char_noop_when_selecting (app : App) (c : Char)
    (h : app.state = AppState.SelectingGuild
      ∨ ∃ gid, app.state = AppState.SelectingChannel gid) :
    run_app_step app (AppAction.InputChar c) = some ⟨app, [], false⟩ := by
  rcases h with h | ⟨gid, h⟩ <;> simp [run_app_step, h]

/-- C10 witness: a concrete character is dropped while selecting a
server. -/
theorem c10_input_char_witness :
    run_app_step c10_app (AppAction.InputChar 'x') = some ⟨c10_app, [], false⟩ :=
  c10_input_char_noop_when_selecting c10_app 'x' (Or.inl rfl)

/-!
Claim C2: helper lemmas relating the source's per-role first-match
accumulation to the spec's union over all matching role overwrites.
-/

/-- The permission string `"0"` parses to zero. -/
theorem parse_permission_string_zero : parse_permission_string "0" = 0 := by decide

/-- Bit `i` of an OR-fold is set iff it is set in the seed or in one of
the folded values. -/
theorem foldl_or_testBit {α : Type} (f : α → Nat) (l : List α) (init i : Nat) :
    (l.foldl (fun acc x => acc ||| f x) init).testBit i
      = (init.testBit i || l.any (fun x => (f x).testBit i)) := by
  induction l generalizing init with
  | nil => simp
  | cons x xs ih =>
    rw [List.foldl_cons, ih, List.any_cons, Nat.testBit_lor, Bool.or_assoc]

/-- The paired deny/allow accumulation of `roleOverwriteAccum` splits into
two independent OR-folds. -/
theorem roleAccumAux (ch : Channel) (l : List String) (p q : Nat) :
    l.foldl (fun acc rid =>
        match ch.permission_overwrites.find? (fun o => o.type == 0 && o.id == rid) with
        | some o =>
          (acc.1 ||| parse_permission_string o.deny, acc.2 ||| parse_permission_string o.allow)
        | none => acc) (p, q)
      = (l.foldl (fun acc rid =>
            acc ||| (match ch.permission_overwrites.find? (fun o => o.type == 0 && o.id == rid) with
                     | some o => parse_permission_string o.deny
                     | none => 0)) p,
         l.foldl (fun acc rid =>
            acc ||| (match ch.permission_overwrites.find? (fun o => o.type == 0 && o.id == rid) with
                     | some o => parse_permission_string o.allow
                     | none => 0)) q) := by
  induction l generalizing p q with
  | nil => rfl
  | cons x xs ih =>
    rw [List.foldl_cons, List.foldl_cons, List.foldl_cons]
    cases hf : ch.permission_overwrites.find? (fun o => o.type == 0 && o.id == x) with
    | some o =>
      simp only [hf]
      exact ih _ _
    | none =>
      simp only [hf, Nat.or_zero]
      exact ih _ _

/-- `roleOverwriteAccum` as two OR-folds. -/
theorem roleOverwriteAccum_split (ch : Channel) (ctx : PermissionContext) :
    roleOverwriteAccum ch ctx
      = ((ctx.user_role_ids.filter (fun rid => rid != ctx.everyone_role_id)).foldl
           (fun acc rid =>
             acc ||| (match ch.permission_overwrites.find? (fun o => o.type == 0 && o.id == rid) with
                      | some o => parse_permission_string o.deny
                      | none => 0)) 0,
         (ctx.user_role_ids.filter (fun rid => rid != ctx.everyone_role_id)).foldl
           (fun acc rid =>
             acc ||| (match ch.permission_overwrites.find? (fun o => o.type == 0 && o.id == rid) with
                      | some o => parse_permission_string o.allow
                      | none => 0)) 0) := by
  unfold roleOverwriteAccum
  exact roleAccumAux ch _ 0 0

/-- When type-0 overwrite subjects are pairwise distinct, `find?` with the
role-scoped predicate returns exactly the member of the list with that
subject. -/
theorem find?_eq_some_of_unique (l : List Overwrite) (o : Overwrite)
    (hu : (l.filter (fun x => x.type == 0)).Pairwise (fun x y => x.id ≠ y.id))
    (ho : o ∈ l) (ht : o.type = 0) :
    l.find? (fun x => x.type == 0 && x.id == o.id) = some o := by
  induction l with
  | nil => cases ho
  | cons hd tl ih =>
    have hutl : (tl.filter (fun x => x.type == 0)).Pairwise (fun x y => x.id ≠ y.id) := by
      by_cases h0 : (hd.type == 0) = true
      · have hfil : (hd :: tl).filter (fun x => x.type == 0)
            = hd :: tl.filter (fun x => x.type == 0) := by
          simp [List.filter_cons, h0]
        rw [hfil] at hu
        exact hu.of_cons
      · have hfil : (hd :: tl).filter (fun x => x.type == 0)
            = tl.filter (fun x => x.type == 0) := by
          simp [List.filter_cons, h0]
        rw [hfil] at hu
        exact hu
    rcases List.mem_cons.mp ho with heq | hmem
    · subst heq
      simp [List.find?_cons, ht]
    · by_cases hp : (hd.type == 0 && hd.id == o.id) = true
      · exfalso
        rw [Bool.and_eq_true] at hp
        have hid : hd.id = o.id := by simpa using hp.2
        have hfil : (hd :: tl).filter (fun x => x.type == 0)
            = hd :: tl.filter (fun x => x.type == 0) := by
          simp [List.filter_cons, hp.1]
        rw [hfil] at hu
        have hof : o ∈ tl.filter (fun x => x.type == 0) :=
          List.mem_filter.mpr ⟨hmem, by simp [ht]⟩
        exact (List.pairwise_cons.mp hu).1 o hof hid
      · rw [List.find?_cons]
        simp only [Bool.not_eq_true] at hp
        rw [hp]
        exact ih hutl hmem

/-- For each bit, scanning the held roles and taking each one's first
matching role-scoped overwrite covers the same overwrites as filtering the
overwrite list by matching subject — given distinct type-0 subjects. -/
theorem roleAny_eq (ch : Channel) (ctx : PermissionContext) (f : Overwrite → Nat)
    (hu : roleOverwriteIdsDistinct ch) (i : Nat) :
    ((ctx.user_role_ids.filter (fun rid => rid != ctx.everyone_role_id)).any
        (fun rid =>
          (match ch.permission_overwrites.find?
              (fun (o : Overwrite) => o.type == 0 && o.id == rid) with
           | some o => f o
           | none => 0).testBit i))
      = ((ch.permission_overwrites.filter (fun o =>
            o.type == 0 && ctx.user_role_ids.contains o.id
              && o.id != ctx.everyone_role_id)).any
          (fun o => (f o).testBit i)) := by
  apply Bool.eq_iff_iff.mpr
  constructor
  · intro h
    obtain ⟨rid, hrid, hbit⟩ := List.any_eq_true.mp h
    cases hf : ch.permission_overwrites.find? (fun o => o.type == 0 && o.id == rid) with
    | none =>
      rw [hf] at hbit
      simp [Nat.zero_testBit] at hbit
    | some o =>
      rw [hf] at hbit
      have hpred := List.find?_some hf
      have hmemo := List.mem_of_find?_eq_some hf
      rw [Bool.and_eq_true] at hpred
      have hid : o.id = rid := by simpa using hpred.2
      have hrid2 := List.mem_filter.mp hrid
      refine List.any_eq_true.mpr ⟨o, List.mem_filter.mpr ⟨hmemo, ?_⟩, hbit⟩
      rw [Bool.and_eq_true, Bool.and_eq_true]
      refine ⟨⟨hpred.1, ?_⟩, ?_⟩
      · rw [hid]
        simp [hrid2.1]
      · rw [hid]
        exact hrid2.2
  · intro h
    obtain ⟨o, ho, hbit⟩ := List.any_eq_true.mp h
    have hparts := List.mem_filter.mp ho
    have hcond := hparts.2
    rw [Bool.and_eq_true, Bool.and_eq_true] at hcond
    have h0 : o.type = 0 := by simpa using hcond.1.1
    have hin : o.id ∈ ctx.user_role_ids := by simpa using hcond.1.2
    refine List.any_eq_true.mpr
      ⟨o.id, List.mem_filter.mpr ⟨hin, hcond.2⟩, ?_⟩
    rw [find?_eq_some_of_unique ch.permission_overwrites o hu hparts.1 h0]
    exact hbit

/-- Given distinct type-0 subjects, the source's per-held-role first-match
OR-fold equals the spec's OR-fold over all matching role overwrites. -/
theorem roleFold_eq_specFold (ch : Channel) (ctx : PermissionContext) (f : Overwrite → Nat)
    (hu : roleOverwriteIdsDistinct ch) :
    (ctx.user_role_ids.filter (fun rid => rid != ctx.everyone_role_id)).foldl
        (fun acc rid =>
          acc ||| (match ch.permission_overwrites.find?
                      (fun (o : Overwrite) => o.type == 0 && o.id == rid) with
                   | some o => f o
                   | none => 0)) 0
      = (ch.permission_overwrites.filter (fun o =>
            o.type == 0 && ctx.user_role_ids.contains o.id
              && o.id != ctx.everyone_role_id)).foldl
          (fun acc o => acc ||| f o) 0 := by
  apply Nat.eq_of_testBit_eq
  intro i
  rw [foldl_or_testBit, foldl_or_testBit]
  simp only [Nat.zero_testBit, Bool.false_or]
  exact roleAny_eq ch ctx f hu i

/-- C2 counterexample: on a channel where two role-scoped overwrites share
the subject `r` and a member-scoped overwrite matches the member key, the
code resolves `10` while the claimed reference computation yields `0` —
the code uses only the FIRST overwrite per held role and then applies a
member-overwrite step the reference does not include. -/
theorem c2_code_differs_from_reference :
    calculate_permissions c2_channel c2_context = 10
    ∧ specResolveReference c2_channel c2_context = 0
    ∧ calculate_permissions c2_channel c2_context
        ≠ specResolveReference c2_channel c2_context := by decide

/-- C2 (amended): for channels whose role-scoped overwrites have pairwise
distinct subjects, the bitmask resolved through the role-overwrite stage —
the value to which the final member-overwrite step is then applied —
equals the spec's reference computation, and the full resolution is the
member-overwrite step applied to that reference value. -/
theorem c2_resolution_matches_reference (ch : Channel) (ctx : PermissionContext)
    (hu : roleOverwriteIdsDistinct ch) :
    applyRoleOverwrites ch ctx
        (applyEveryoneOverwrite ch ctx
          (orUserRolePermissions ctx (everyoneRolePermissions ctx)))
      = specResolveReference ch ctx
    ∧ calculate_permissions ch ctx
      = applyMemberOverwrite ch ctx (specResolveReference ch ctx) := by
  have hbase : everyoneRolePermissions ctx = specReferenceBase ctx := by
    unfold everyoneRolePermissions specReferenceBase
    cases ctx.all_guild_roles.find? (fun r => r.id == ctx.everyone_role_id)
    · exact parse_permission_string_zero
    · rfl
  have hwr : orUserRolePermissions ctx (everyoneRolePermissions ctx)
      = specReferenceWithRoles ctx := by
    unfold orUserRolePermissions specReferenceWithRoles
    rw [hbase]
  have hae : applyEveryoneOverwrite ch ctx
        (orUserRolePermissions ctx (everyoneRolePermissions ctx))
      = specReferenceAfterEveryone ch ctx := by
    unfold applyEveryoneOverwrite specReferenceAfterEveryone
    rw [hwr]
  have hd : (roleOverwriteAccum ch ctx).1 = specCombinedRoleDeny ch ctx := by
    rw [roleOverwriteAccum_split]
    unfold specCombinedRoleDeny
    exact roleFold_eq_specFold ch ctx (fun o => parse_permission_string o.deny) hu
  have ha : (roleOverwriteAccum ch ctx).2 = specCombinedRoleAllow ch ctx := by
    rw [roleOverwriteAccum_split]
    unfold specCombinedRoleAllow
    exact roleFold_eq_specFold ch ctx (fun o => parse_permission_string o.allow) hu
  have h1 : applyRoleOverwrites ch ctx
        (applyEveryoneOverwrite ch ctx
          (orUserRolePermissions ctx (everyoneRolePermissions ctx)))
      = specResolveReference ch ctx := by
    unfold applyRoleOverwrites specResolveReference
    rw [hd, ha, hae]
  refine ⟨h1, ?_⟩
  unfold calculate_permissions
  rw [h1]

/-- C2 witness: on a concrete channel with distinct role-scoped overwrite
subjects, the amended equality holds and evaluates. -/
theorem c2_resolution_witness :
    roleOverwriteIdsDistinct c2w_channel
    ∧ applyRoleOverwrites c2w_channel c2w_context
        (applyEveryoneOverwrite c2w_channel c2w_context
          (orUserRolePermissions c2w_context (everyoneRolePermissions c2w_context)))
      = specResolveReference c2w_channel c2w_context
    ∧ calculate_permissions c2w_channel c2w_context
      = applyMemberOverwrite c2w_channel c2w_context
          (specResolveReference c2w_channel c2w_context) :=
  ⟨by decide,
   (c2_resolution_matches_reference c2w_channel c2w_context (by decide)).1,
   (c2_resolution_matches_reference c2w_channel c2w_context (by decide)).2⟩

end Rivet
